import Mathlib

/-!
Shallow embedding of the PSG sleep-analysis engine (source files
`psg_edf.py` and `edf30.py`): annotation-driven sleep staging, sleep
efficiency, latencies, REM cycles, per-hour indices, the composite
sleep-quality score, heart-rate episode detection, SpO2 threshold counts,
and the artifact/heartbeat-gap mask builder.  Durations, onsets and all
derived quantities are modelled as exact rationals; Python `int()`
truncation and banker's rounding are modelled explicitly.
-/

/-- Python's substring test (`pat in s`), modelled on the character lists. -/
def containsSub (pat s : String) : Bool := decide (pat.toList <:+: s.toList)

/-- Python `int()` applied to a rational: truncation toward zero. -/
def pyInt (q : ℚ) : ℤ := if 0 ≤ q then ⌊q⌋ else -⌊-q⌋

/-- The 30-second-epoch tolerance test `abs(duration - 30) < 1` shared by all
staging code paths. -/
def tol30 (d : ℚ) : Bool := decide (|d - 30| < 1)

/-- Round half to even (the rounding used by Python's `round` and numpy). -/
def roundHalfEven (x : ℚ) : ℤ :=
  let n := ⌊x⌋
  let f := x - n
  if f < 1/2 then n
  else if 1/2 < f then n + 1
  else if Even n then n else n + 1

/-- Python `round(x, 2)`. -/
def round2 (x : ℚ) : ℚ := (roundHalfEven (x * 100) : ℚ) / 100

/-- Python `round(x, 1)`. -/
def round1 (x : ℚ) : ℚ := (roundHalfEven (x * 10) : ℚ) / 10

/-- One entry of the recording's annotation stream. -/
structure Annot where
  desc : String
  onset : ℚ
  duration : ℚ
deriving Repr, DecidableEq

def lblW : String := "Sleep stage W(eventUnknown)"

def lbl1 : String := "Sleep stage 1(eventUnknown)"

def lbl2 : String := "Sleep stage 2(eventUnknown)"

def lbl3 : String := "Sleep stage 3(eventUnknown)"

def lblR : String := "Sleep stage R(eventUnknown)"

def lblU : String := "Sleep stage Unknown(eventUnknown)"

/-- Per-stage tally: epoch count and accumulated minutes. -/
structure StageTally where
  count : Nat
  minutes : ℚ
deriving Repr, DecidableEq

/-- The six-stage tally built by `psg_edf.SleepAnalyzer.calculate_stages`
(it maps the five sleep-stage labels plus the Unknown label). -/
structure SleepStages where
  wake : StageTally
  n1 : StageTally
  n2 : StageTally
  n3 : StageTally
  rem : StageTally
  unknown : StageTally
deriving Repr, DecidableEq

def addEpoch (t : StageTally) : StageTally := ⟨t.count + 1, t.minutes + 1/2⟩

def stagesInit : SleepStages := ⟨⟨0, 0⟩, ⟨0, 0⟩, ⟨0, 0⟩, ⟨0, 0⟩, ⟨0, 0⟩, ⟨0, 0⟩⟩

/-- One iteration of the `calculate_stages` loop: an annotation whose
description is in the mapping and whose duration passes the ±1 s test
increments that stage's count and adds 0.5 minutes. -/
def stagesStep (st : SleepStages) (a : Annot) : SleepStages :=
  if tol30 a.duration then
    if a.desc = lblW then { st with wake := addEpoch st.wake }
    else if a.desc = lbl1 then { st with n1 := addEpoch st.n1 }
    else if a.desc = lbl2 then { st with n2 := addEpoch st.n2 }
    else if a.desc = lbl3 then { st with n3 := addEpoch st.n3 }
    else if a.desc = lblR then { st with rem := addEpoch st.rem }
    else if a.desc = lblU then { st with unknown := addEpoch st.unknown }
    else st
  else st

/-- `psg_edf.SleepAnalyzer.calculate_stages` (lines 400-424). -/
def calculate_stages (anns : List Annot) : SleepStages :=
  anns.foldl stagesStep stagesInit

/-- The five-stage tally built by `edf30.SleepAnalyzer.calculate_sleep_stages`
(its mapping has no Unknown entry). -/
structure SleepStages5 where
  wake : StageTally
  n1 : StageTally
  n2 : StageTally
  n3 : StageTally
  rem : StageTally
deriving Repr, DecidableEq

def stagesInit5 : SleepStages5 := ⟨⟨0, 0⟩, ⟨0, 0⟩, ⟨0, 0⟩, ⟨0, 0⟩, ⟨0, 0⟩⟩

def stagesStep5 (st : SleepStages5) (a : Annot) : SleepStages5 :=
  if tol30 a.duration then
    if a.desc = lblW then { st with wake := addEpoch st.wake }
    else if a.desc = lbl1 then { st with n1 := addEpoch st.n1 }
    else if a.desc = lbl2 then { st with n2 := addEpoch st.n2 }
    else if a.desc = lbl3 then { st with n3 := addEpoch st.n3 }
    else if a.desc = lblR then { st with rem := addEpoch st.rem }
    else st
  else st

/-- `edf30.SleepAnalyzer.calculate_sleep_stages` (lines 86-111). -/
def calculate_sleep_stages (anns : List Annot) : SleepStages5 :=
  anns.foldl stagesStep5 stagesInit5

/-- Result record of `calculate_efficiency`. -/
structure EfficiencyResult where
  sleep_efficiency : ℚ
  total_sleep_time : ℚ
  total_bed_time : ℚ
  wake_after_sleep_onset : ℚ
deriving Repr, DecidableEq

/-- `psg_edf.SleepAnalyzer.calculate_efficiency` (lines 426-439), on the
already-computed stage tally (the `None` guard for missing stages is the
caller's concern).  `total_bed` sums the minutes of all six tallies,
Unknown included. -/
def calculate_efficiency (st : SleepStages) : EfficiencyResult :=
  let total_sleep := st.n1.minutes + st.n2.minutes + st.n3.minutes + st.rem.minutes
  let total_bed := st.wake.minutes + st.n1.minutes + st.n2.minutes + st.n3.minutes +
    st.rem.minutes + st.unknown.minutes
  ⟨if 0 < total_bed then total_sleep / total_bed * 100 else 0,
   total_sleep, total_bed, st.wake.minutes⟩

/-- Modelled from the spec: the efficiency formula as the specification words
it, with the denominator restricted to the five named sleep stages (the
source's denominator also counts the Unknown tally). -/
def spec_efficiency_five_stage (st : SleepStages) : ℚ :=
  let total_sleep := st.n1.minutes + st.n2.minutes + st.n3.minutes + st.rem.minutes
  let bed5 := st.wake.minutes + st.n1.minutes + st.n2.minutes + st.n3.minutes + st.rem.minutes
  if 0 < bed5 then total_sleep / bed5 * 100 else 0

/-- Result record of `calculate_architecture`. -/
structure Architecture where
  n1_percentage : ℚ
  n2_percentage : ℚ
  n3_percentage : ℚ
  rem_percentage : ℚ
deriving Repr, DecidableEq

/-- `psg_edf.SleepAnalyzer.calculate_architecture` (lines 441-454);
`none` models the `return None` when total sleep time is 0. -/
def calculate_architecture (st : SleepStages) : Option Architecture :=
  let total_sleep := st.n1.minutes + st.n2.minutes + st.n3.minutes + st.rem.minutes
  if total_sleep = 0 then none
  else some ⟨st.n1.minutes / total_sleep * 100, st.n2.minutes / total_sleep * 100,
    st.n3.minutes / total_sleep * 100, st.rem.minutes / total_sleep * 100⟩

def lblObstrApnea : String := "Обструктивное апноэ(pointPolySomnographyObstructiveApnea)"

def lblCentrApnea : String := "Центральное апноэ(pointPolySomnographyCentralApnea)"

def lblMixedApnea : String := "Смешанное апноэ(pointPolySomnographyMixedApnea)"

def lblObstrHypo : String := "Обструктивное гипопноэ(pointPolySomnographyHypopnea)"

def lblCentrHypo : String := "Центральное гипопноэ(pointPolySomnographyCentralHypopnea)"

def lblMixedHypo : String := "Смешанное гипопноэ(pointPolySomnographyMixedHypopnea)"

def lblDesat : String := "Десатурация(pointPolySomnographyDesaturation)"

def lblSnore : String := "Храп(pointPolySomnographySnore)"

def lblCheyneStokes : String := "Дыхание Чейна-Стокса(pointPolySomnographyCheyneStokesRespiration)"

def lblActivationEvt : String := "Активация(pointPolySomnographyActivation)"

def lblLimbMove : String := "Движение конечностей(pointPolySomnographyLegsMovements)"

def lblPeriodicMove : String := "Периодические движения конечностей(pointPolySomnographyPeriodicalLegsMovements)"

def lblBruxism : String := "Бруксизм(pointBruxism)"

def lblRemPoint : String := "БДГ(pointPolySomnographyREM)"

/-- Number of annotations whose description equals `lbl` exactly. -/
def countDesc (anns : List Annot) (lbl : String) : Nat :=
  anns.countP (fun a => a.desc == lbl)

/-- Result record of `calculate_respiratory_events` (the per-type tallies;
the `apneas`/`hypopneas` sums are the projections below). -/
structure RespEvents where
  obstructive_apneas : Nat
  central_apneas : Nat
  mixed_apneas : Nat
  obstructive_hypopneas : Nat
  central_hypopneas : Nat
  mixed_hypopneas : Nat
  desaturations : Nat
  snoring : Nat
  cheyne_stokes : Nat
deriving Repr, DecidableEq

/-- `psg_edf.SleepAnalyzer.calculate_respiratory_events` (lines 504-530). -/
def calculate_respiratory_events (anns : List Annot) : RespEvents :=
  ⟨countDesc anns lblObstrApnea, countDesc anns lblCentrApnea, countDesc anns lblMixedApnea,
   countDesc anns lblObstrHypo, countDesc anns lblCentrHypo, countDesc anns lblMixedHypo,
   countDesc anns lblDesat, countDesc anns lblSnore, countDesc anns lblCheyneStokes⟩

def RespEvents.apneas (e : RespEvents) : Nat :=
  e.obstructive_apneas + e.central_apneas + e.mixed_apneas

def RespEvents.hypopneas (e : RespEvents) : Nat :=
  e.obstructive_hypopneas + e.central_hypopneas + e.mixed_hypopneas

/-- Total sleep time in minutes (N1+N2+N3+REM) of the computed tally. -/
def totalSleepMinutes (anns : List Annot) : ℚ :=
  let st := calculate_stages anns
  st.n1.minutes + st.n2.minutes + st.n3.minutes + st.rem.minutes

/-- Result record of `calculate_indices`. -/
structure IndicesResult where
  ahi : ℚ
  ahi_obstructive : ℚ
  ahi_central : ℚ
  ahi_mixed : ℚ
  odi : ℚ
  snoring_index : ℚ
deriving Repr, DecidableEq

/-- `psg_edf.SleepAnalyzer.calculate_indices` (lines 532-569); `none` models
the `return {}` taken when total sleep time is 0, before any division. -/
def calculate_indices (anns : List Annot) : Option IndicesResult :=
  let ev := calculate_respiratory_events anns
  let total_sleep := totalSleepMinutes anns
  if total_sleep = 0 then none
  else
    let sleep_hours := total_sleep / 60
    some ⟨((ev.apneas : ℚ) + (ev.hypopneas : ℚ)) / sleep_hours,
      ((ev.obstructive_apneas : ℚ) + (ev.obstructive_hypopneas : ℚ)) / sleep_hours,
      ((ev.central_apneas : ℚ) + (ev.central_hypopneas : ℚ)) / sleep_hours,
      ((ev.mixed_apneas : ℚ) + (ev.mixed_hypopneas : ℚ)) / sleep_hours,
      (ev.desaturations : ℚ) / sleep_hours,
      (ev.snoring : ℚ) / sleep_hours⟩

/-- The AHI as reported downstream (`generate_sql` line 792:
`round(sleep_indices.get('ahi', 0), 2)`; an absent key reads as 0). -/
def reported_ahi (anns : List Annot) : ℚ :=
  round2 (((calculate_indices anns).map IndicesResult.ahi).getD 0)

/-- The ODI as reported downstream (`generate_sql` line 796). -/
def reported_odi (anns : List Annot) : ℚ :=
  round2 (((calculate_indices anns).map IndicesResult.odi).getD 0)

/-- The snore index as reported downstream (`generate_sql` line 797). -/
def reported_snore_index (anns : List Annot) : ℚ :=
  round2 (((calculate_indices anns).map IndicesResult.snoring_index).getD 0)

/-- Result record of `calculate_fragmentation`. -/
structure Fragmentation where
  fragmentation_index : ℚ
  activations : Nat
  limb_movements : Nat
  periodic_limb_movements : Nat
  bruxism_events : Nat
  total_limb_movements : Nat
  arousal_index : ℚ
deriving Repr, DecidableEq

/-- `psg_edf.SleepAnalyzer.calculate_fragmentation` (lines 479-502): both
per-hour indices are defined as 0 when total sleep time is 0. -/
def calculate_fragmentation (anns : List Annot) : Fragmentation :=
  let activations := countDesc anns lblActivationEvt
  let limb := countDesc anns lblLimbMove
  let periodic := countDesc anns lblPeriodicMove
  let bruxism := countDesc anns lblBruxism
  let total_sleep := totalSleepMinutes anns
  let total_movements := limb + periodic
  ⟨if 0 < total_sleep then ((activations : ℚ) + (total_movements : ℚ)) / (total_sleep / 60) else 0,
   activations, limb, periodic, bruxism, total_movements,
   if 0 < total_sleep then (activations : ℚ) / (total_sleep / 60) else 0⟩

/-- The fragmentation index as reported downstream (`generate_sql` line 819). -/
def reported_fragmentation_index (anns : List Annot) : ℚ :=
  round2 (calculate_fragmentation anns).fragmentation_index

/-- The arousal index as reported downstream (`generate_sql` line 818). -/
def reported_arousal_index (anns : List Annot) : ℚ :=
  round2 (calculate_fragmentation anns).arousal_index

/-- Result record of `calculate_rem_quality` (the score is integer-valued,
so the Python `int()` on it is the identity). -/
structure RemQuality where
  rem_quality_score : ℚ
  rem_minutes : ℚ
  rem_events : Nat
  rem_density : ℚ
deriving Repr, DecidableEq

/-- `psg_edf.SleepAnalyzer.calculate_rem_quality` (lines 571-595). -/
def calculate_rem_quality (anns : List Annot) : RemQuality :=
  let rem_epochs := anns.countP (fun a => a.desc == lblR && tol30 a.duration)
  let rem_events := countDesc anns lblRemPoint
  let rem_minutes : ℚ := (rem_epochs : ℚ) * (1/2)
  let rem_density : ℚ := if 0 < rem_minutes then (rem_events : ℚ) / rem_minutes else 0
  let time_score : ℚ := if 15 ≤ rem_minutes then 40 else if 5 ≤ rem_minutes then 20 else 0
  let density_score : ℚ := if 3/2 ≤ rem_density then 60 else if 1/2 ≤ rem_density then 30 else 0
  ⟨min (time_score + density_score) 100, rem_minutes, rem_events, rem_density⟩

/-- Sleep-stage codes used by the REM-cycle scan. -/
inductive Stg
  | W
  | N1
  | N2
  | N3
  | R
deriving Repr, DecidableEq

def stgOfDesc (s : String) : Option Stg :=
  if s = lblW then some Stg.W
  else if s = lbl1 then some Stg.N1
  else if s = lbl2 then some Stg.N2
  else if s = lbl3 then some Stg.N3
  else if s = lblR then some Stg.R
  else none

/-- The stage-label sequence extracted by `calculate_rem_cycles`:
mapped labels whose duration passes the ±1 s test, in stream order. -/
def stageSeq (anns : List Annot) : List Stg :=
  anns.filterMap (fun a => if tol30 a.duration then stgOfDesc a.desc else none)

def Stg.isNrem : Stg → Bool
  | Stg.N1 => true
  | Stg.N2 => true
  | Stg.N3 => true
  | _ => false

/-- State of the REM-cycle scan: cycle counter plus the two flags. -/
structure RemCycleState where
  cycles : Nat
  in_rem : Bool
  rem_started : Bool
deriving Repr, DecidableEq

/-- The loop body of `calculate_rem_cycles` (lines 623-635 of psg_edf.py,
identically lines 331-347 of edf30.py): the three `if/elif` branches on
(previous, current, next) stages. -/
def remStep (prev cur next : Stg) (st : RemCycleState) : RemCycleState :=
  if cur = Stg.R ∧ prev.isNrem = true ∧ st.rem_started = false then ⟨st.cycles, true, true⟩
  else if cur = Stg.R ∧ next.isNrem = true ∧ st.in_rem = true then ⟨st.cycles + 1, false, false⟩
  else if cur = Stg.W ∧ st.in_rem = true then ⟨st.cycles, false, false⟩
  else st

/-- The index loop `for i in range(1, len(sequence) - 1)`: each element except
the first and last is processed with its neighbours. -/
def remLoop : Stg → Stg → List Stg → RemCycleState → RemCycleState
  | _, _, [], st => st
  | prev, cur, next :: rest, st => remLoop cur next rest (remStep prev cur next st)

/-- `psg_edf.SleepAnalyzer.calculate_rem_cycles` (lines 597-637); the same
logic appears verbatim as `edf30.SleepAnalyzer.calculate_rem_cycles`. -/
def calculate_rem_cycles (anns : List Annot) : Nat :=
  match stageSeq anns with
  | prev :: cur :: rest => (remLoop prev cur rest ⟨0, false, false⟩).cycles
  | _ => 0

def tachySub : String := "Тахикардия"

def bradySub : String := "Брадикардия"

/-- The tachycardia marker tally of `psg_edf.SignalAnalyzer.analyze_ecg`
(lines 93-99), the only part of that function feeding the quality score:
annotations whose description contains the tachycardia substring. -/
def tachycardia_events (anns : List Annot) : Nat :=
  anns.countP (fun a => containsSub tachySub a.desc)

/-- The bradycardia marker tally of the same loop; the `elif` means an
annotation containing both substrings counts only as tachycardia. -/
def bradycardia_events (anns : List Annot) : Nat :=
  anns.countP (fun a => !containsSub tachySub a.desc && containsSub bradySub a.desc)

/-- The tiered efficiency bonus of `calculate_sleep_quality`: the weight
table `{85: 25, 70: 20, 50: 10}` iterated in Python insertion order with
`break` on the first threshold reached. -/
def efficiencyPoints (eff : ℚ) : ℚ :=
  if 85 ≤ eff then 25 else if 70 ≤ eff then 20 else if 50 ≤ eff then 10 else 0

/-- The tiered AHI bonus: weight table `{5: 30, 15: 20, 30: 10}`, awarded on
the first threshold the AHI is strictly below. -/
def ahiPoints (ahi : ℚ) : ℚ :=
  if ahi < 5 then 30 else if ahi < 15 then 20 else if ahi < 30 then 10 else 0

/-- The tiered arousal-index bonus: weight table `{10: 15, 20: 10}`. -/
def arousalPoints (ar : ℚ) : ℚ := if ar < 10 then 15 else if ar < 20 then 10 else 0

/-- The tachycardia/bradycardia penalty tiers (−15/−10/−5). -/
def hrPenalty (tachy brady : Nat) : ℚ :=
  if 10 < tachy ∨ 10 < brady then -15
  else if 5 < tachy ∨ 5 < brady then -10
  else if 0 < tachy ∨ 0 < brady then -5
  else 0

/-- The REM-cycle-count bonus (+10 at ≥4, +5 at ≥3). -/
def cyclePoints (cycles : Nat) : ℚ := if 4 ≤ cycles then 10 else if 3 ≤ cycles then 5 else 0

/-- The raw composite score of `calculate_sleep_quality` before the upper
clamp: efficiency tier + architecture bonuses + AHI tier + arousal tier +
REM-quality contribution (score × 0.15) + heart-rate penalty + REM-cycle
bonus.  Missing-key reads (`.get(_, 0)` on dictionaries that may be `{}`)
become `getD 0`. -/
def sleepQualityScore (anns : List Annot) : ℚ :=
  let st := calculate_stages anns
  let arch := calculate_architecture st
  efficiencyPoints (calculate_efficiency st).sleep_efficiency +
    (if 15 ≤ (arch.map Architecture.n3_percentage).getD 0 then 15 else 0) +
    (if 20 ≤ (arch.map Architecture.rem_percentage).getD 0 then 15 else 0) +
    ahiPoints (((calculate_indices anns).map IndicesResult.ahi).getD 0) +
    arousalPoints (calculate_fragmentation anns).arousal_index +
    (calculate_rem_quality anns).rem_quality_score * (15/100) +
    hrPenalty (tachycardia_events anns) (bradycardia_events anns) +
    cyclePoints (calculate_rem_cycles anns)

/-- `psg_edf.SleepAnalyzer.calculate_sleep_quality` (lines 639-712): the
returned value is `int(min(score, 100))` — clamped above at 100 only. -/
def calculate_sleep_quality (anns : List Annot) : ℤ :=
  pyInt (min (sleepQualityScore anns) 100)

/-- Scan state of `calculate_latencies`: the two first-epoch elapsed times
(absent while not yet seen) and the running elapsed time. -/
structure LatState where
  first_sleep : Option ℚ
  first_rem : Option ℚ
  current_time : ℚ
deriving Repr, DecidableEq

def sleepLbls : List String := [lbl1, lbl2, lbl3, lblR]

/-- One iteration of the `calculate_latencies` loop (lines 461-471):
record the elapsed time of the first qualifying sleep epoch and of the
first qualifying REM epoch, then add the duration. -/
def latStep (st : LatState) (a : Annot) : LatState :=
  let fs :=
    if sleepLbls.contains a.desc ∧ st.first_sleep = none ∧ tol30 a.duration = true
    then some st.current_time else st.first_sleep
  let fr :=
    if a.desc = lblR ∧ st.first_rem = none ∧ tol30 a.duration = true
    then some st.current_time else st.first_rem
  ⟨fs, fr, st.current_time + a.duration⟩

/-- `psg_edf.SleepAnalyzer.calculate_latencies` (lines 456-477); the same
logic appears as `edf30.SleepAnalyzer.calculate_sleep_latencies`.  The final
conversions model Python truthiness: `first_sleep / 60 if first_sleep else
None` yields `None` both when absent and when the value is 0, and the REM
latency requires both values truthy (present and nonzero). -/
def calculate_latencies (anns : List Annot) : Option ℚ × Option ℚ :=
  let st := anns.foldl latStep ⟨none, none, 0⟩
  let onset : Option ℚ :=
    match st.first_sleep with
    | some t => if t = 0 then none else some (t / 60)
    | none => none
  let remLat : Option ℚ :=
    match st.first_sleep, st.first_rem with
    | some s, some r => if s = 0 ∨ r = 0 then none else some ((r - s) / 60)
    | _, _ => none
  (onset, remLat)

/-- A qualifying sleep-onset epoch: one of the four sleep-stage labels with a
30-second duration (±1 s). -/
def isSleepEpoch (a : Annot) : Bool := sleepLbls.contains a.desc && tol30 a.duration

/-- A qualifying REM epoch. -/
def isRemEpoch (a : Annot) : Bool := (a.desc == lblR) && tol30 a.duration

/-- Declarative elapsed time at the first annotation satisfying `p`: the sum
of the durations of all preceding annotations, `none` when no annotation
satisfies `p`. -/
def elapsedAtFirst (p : Annot → Bool) (anns : List Annot) : Option ℚ :=
  match anns.findIdx? p with
  | some i => some (((anns.take i).map Annot.duration).sum)
  | none => none

/-- State of the heart-rate episode scan of
`edf30.SleepAnalyzer._detect_heart_rate_episodes` (lines 564-598). -/
structure HrScanState where
  tachy_count : Nat
  brady_count : Nat
  tachy_episode : Bool
  brady_episode : Bool
  tachy_events : Nat
  brady_events : Nat
deriving Repr, DecidableEq

/-- Thresholds from `edf30.ANALYSIS_CONFIG['ecg']`. -/
def tachyThreshold : ℚ := 100

def bradyThreshold : ℚ := 50

def minConsecutiveEvents : Nat := 10

/-- One iteration of the episode scan: the tachycardia block then the
bradycardia block, each with its own counter and open-episode flag. -/
def hrStep (st : HrScanState) (hr : ℚ) : HrScanState :=
  let st1 :=
    if tachyThreshold < hr then
      let c := st.tachy_count + 1
      if minConsecutiveEvents ≤ c ∧ st.tachy_episode = false then
        { st with tachy_count := c, tachy_events := st.tachy_events + 1, tachy_episode := true }
      else { st with tachy_count := c }
    else { st with tachy_count := 0, tachy_episode := false }
  if hr < bradyThreshold then
    let c := st1.brady_count + 1
    if minConsecutiveEvents ≤ c ∧ st1.brady_episode = false then
      { st1 with brady_count := c, brady_events := st1.brady_events + 1, brady_episode := true }
    else { st1 with brady_count := c }
  else { st1 with brady_count := 0, brady_episode := false }

/-- `edf30.SleepAnalyzer._detect_heart_rate_episodes`: returns the pair
(tachycardia episode count, bradycardia episode count). -/
def detect_heart_rate_episodes (hrs : List ℚ) : Nat × Nat :=
  let st := hrs.foldl hrStep ⟨0, 0, false, false, 0, 0⟩
  (st.tachy_events, st.brady_events)

/-- Generic single-direction episode scan (counter, open flag, accumulator),
the common shape of both halves of `hrStep`. -/
def epGo (p : ℚ → Bool) (m : Nat) : Nat → Bool → Nat → List ℚ → Nat
  | _, _, acc, [] => acc
  | c, e, acc, x :: xs =>
    if p x then
      if m ≤ c + 1 ∧ e = false then epGo p m (c + 1) true (acc + 1) xs
      else epGo p m (c + 1) e acc xs
    else epGo p m 0 false acc xs

/-- Number of maximal runs of consecutive samples satisfying `p` whose length
is at least `m` (the declarative count the episode scan should produce). -/
def countQualRuns (p : ℚ → Bool) (m : Nat) : List ℚ → Nat
  | [] => 0
  | x :: xs =>
    if p x then
      (if m ≤ ((x :: xs).takeWhile p).length then 1 else 0) + countQualRuns p m (xs.dropWhile p)
    else countQualRuns p m xs
termination_by l => l.length
decreasing_by
  · simp only [List.length_cons]
    exact Nat.lt_succ_of_le (xs.dropWhile_sublist p).length_le
  · simp [Nat.lt_succ_self]

/-- SpO2 validity bounds and thresholds from `CONFIG['spo2']`. -/
def spo2MinValid : ℚ := 75

def spo2MaxValid : ℚ := 100

/-- The raw masked below-threshold sample count of
`psg_edf.SignalAnalyzer.analyze_spo2` (lines 201-204): samples that are below
`thr`, marked valid by the mask, and inside the physiological bounds.
Sample/mask pairing is positional, as with numpy boolean indexing. -/
def countBelow (thr : ℚ) (samples : List ℚ) (mask : List Bool) : Nat :=
  (samples.zip mask).countP
    (fun vm => decide (vm.1 < thr) && vm.2 && decide (spo2MinValid ≤ vm.1) &&
      decide (vm.1 ≤ spo2MaxValid))

/-- An artifact/gap region record. `kind` is `none` for plain artifact
regions (their dict has no `type` key) and `some "heartbeat_gap"` for gap
regions. -/
structure Region where
  start_time : ℚ
  end_time : ℚ
  duration : ℚ
  kind : Option String
deriving Repr, DecidableEq

/-- The decoded recording as the mask builder sees it: sampling frequency,
total sample count, and the annotation stream (`none` models a `raw` object
without an `annotations` attribute). -/
structure Raw where
  sfreq : ℚ
  total_samples : Nat
  annots : Option (List Annot)
deriving Repr, DecidableEq

def artifactMarker : String := "Артефакт(blockArtefact)"

def heartbeatMarker : String := "pointIlluminationSensorValue"

def maxGap : ℚ := 5

def minGapDuration : ℚ := 10

/-- Onsets of the sparse reference-event label, in stream order
(`annotations.onset[annotations.description == marker]`). -/
def markerTimes (anns : List Annot) : List ℚ :=
  (anns.filter (fun a => a.desc == heartbeatMarker)).map Annot.onset

/-- Consecutive pairs of a list (`zip` with its own tail), giving the
`np.diff` intervals as second minus first. -/
def consecPairs (l : List ℚ) : List (ℚ × ℚ) := l.zip l.tail

def mkGapRegion (p : ℚ × ℚ) : Region := ⟨p.1, p.2, p.2 - p.1, some "heartbeat_gap"⟩

/-- The per-pair recording condition of `get_heartbeat_gaps` (lines 63-79):
the interval exceeds `max_gap` (np.where), is at least `min_duration`, and
the region's start sample lies inside the recording. -/
def gapRecorded (raw : Raw) (p : ℚ × ℚ) : Bool :=
  decide (maxGap < p.2 - p.1) && decide (minGapDuration ≤ p.2 - p.1) &&
    decide (pyInt (p.1 * raw.sfreq) < (raw.total_samples : ℤ))

/-- Whether sample `i` falls in the half-open sample range of a recorded gap
(`gap_mask[start_sample:end_sample] = True`). -/
def inGapSpan (raw : Raw) (p : ℚ × ℚ) (i : Nat) : Bool :=
  decide (pyInt (p.1 * raw.sfreq) ≤ (i : ℤ)) &&
    decide ((i : ℤ) < min (pyInt (p.2 * raw.sfreq)) (raw.total_samples : ℤ))

/-- `psg_edf.ArtifactProcessor.get_heartbeat_gaps` (lines 48-81): `(none, [])`
when there is no annotation stream or fewer than two reference onsets;
otherwise the boolean gap mask over all samples plus the recorded regions. -/
def get_heartbeat_gaps (raw : Raw) : Option (List Bool) × List Region :=
  match raw.annots with
  | none => (none, [])
  | some anns =>
    let times := markerTimes anns
    if times.length < 2 then (none, [])
    else
      let recorded := (consecPairs times).filter (gapRecorded raw)
      let gap_mask := (List.range raw.total_samples).map
        (fun i => recorded.any (fun p => inGapSpan raw p i))
      (some gap_mask, recorded.map mkGapRegion)

/-- The artifact-block annotations (`artifact_marker in str(desc)`). -/
def artifactAnns (anns : List Annot) : List Annot :=
  anns.filter (fun a => containsSub artifactMarker a.desc)

/-- Whether sample `i` is covered by artifact annotation `a`
(`valid_mask[start:end] = False`, applied only when `start < total_samples`,
with `end` clipped to the sample count). -/
def inArtifactSpan (raw : Raw) (a : Annot) (i : Nat) : Bool :=
  decide (pyInt (a.onset * raw.sfreq) < (raw.total_samples : ℤ)) &&
    decide (pyInt (a.onset * raw.sfreq) ≤ (i : ℤ)) &&
    decide ((i : ℤ) < min (pyInt ((a.onset + a.duration) * raw.sfreq)) (raw.total_samples : ℤ))

/-- `psg_edf.ArtifactProcessor.get_artifact_mask` (lines 24-46): `(none, [])`
with no annotation stream; otherwise the validity mask (true = usable) with
artifact spans and recorded heartbeat gaps removed, plus the region list
(artifact regions, then gap regions). -/
def get_artifact_mask (raw : Raw) : Option (List Bool) × List Region :=
  match raw.annots with
  | none => (none, [])
  | some anns =>
    let arts := artifactAnns anns
    let artifact_regions := (arts.filter
        (fun a => decide (pyInt (a.onset * raw.sfreq) < (raw.total_samples : ℤ)))).map
      (fun a => ({ start_time := a.onset, end_time := a.onset + a.duration,
                   duration := a.duration, kind := none } : Region))
    let valid0 := (List.range raw.total_samples).map
      (fun i => !(arts.any (fun a => inArtifactSpan raw a i)))
    match get_heartbeat_gaps raw with
    | (some gap_mask, gap_regions) =>
      ((valid0.zip gap_mask).map (fun b => b.1 && !b.2), artifact_regions ++ gap_regions) |>
        (fun p => (some p.1, p.2))
    | (none, _) => (some valid0, artifact_regions)

/-- Sorting as numpy does before taking percentiles (the sorted permutation
of a multiset is unique, so any correct sort models `np.sort`). -/
def pySort (l : List ℚ) : List ℚ := l.insertionSort (fun a b => a ≤ b)

/-- Linear interpolation at fractional index `idx` into the sorted list `s`
(numpy's default percentile interpolation). -/
def interpAt (s : List ℚ) (idx : ℚ) : ℚ :=
  let n := s.length
  let k := (⌊idx⌋).toNat
  let frac := idx - (k : ℚ)
  if k + 1 < n then s.getD k 0 + frac * (s.getD (k + 1) 0 - s.getD k 0)
  else s.getD (n - 1) 0

/-- `np.percentile(l, q)` with linear interpolation. -/
def percentile (l : List ℚ) (q : ℚ) : ℚ :=
  let s := pySort l
  if s.length = 0 then 0
  else interpAt s (q / 100 * ((s.length : ℚ) - 1))

/-- `np.median` equals the 50th percentile under linear interpolation. -/
def npMedian (l : List ℚ) : ℚ := percentile l 50

/-- The heart-rate statistics block of `psg_edf.SignalAnalyzer.analyze_ecg`
(lines 131-137): reported only when more than 5 retained rates exist; the
triple is (avg, min, max) = (median, 5th percentile, 95th percentile),
each rounded to 2 decimals. -/
def ecgStats (valid_hr : List ℚ) : Option (ℚ × ℚ × ℚ) :=
  if 5 < valid_hr.length then
    some (round2 (npMedian valid_hr), round2 (percentile valid_hr 5),
      round2 (percentile valid_hr 95))
  else none

/-- The respiratory statistics block of
`psg_edf.SignalAnalyzer.analyze_respiration` (lines 360-365): reported when
the final pool is nonempty; (avg, min, max) = (median, 10th percentile,
90th percentile), each rounded to 1 decimal. -/
def respStats (final_rates : List ℚ) : Option (ℚ × ℚ × ℚ) :=
  if 0 < final_rates.length then
    some (round1 (npMedian final_rates), round1 (percentile final_rates 10),
      round1 (percentile final_rates 90))
  else none

/-- Shorthand to build an annotation. -/
def mkA (d : String) (o dur : ℚ) : Annot := ⟨d, o, dur⟩

/-- A lone N2-labelled event of duration 28.9 s. -/
def exN2Short : List Annot := [mkA lbl2 0 (289/10)]

/-- A lone Unknown-labelled event of duration 30 s. -/
def exUnknown30 : List Annot := [mkA lblU 0 30]

/-- One N2 epoch followed by one Unknown epoch, both 30 s. -/
def exN2U : List Annot := [mkA lbl2 0 30, mkA lblU 30 30]

/-- The literal stage sequence [N2, R, N2, R, W, R, N2] as 30-second
annotations. -/
def exRemSeq : List Annot :=
  [mkA lbl2 0 30, mkA lblR 30 30, mkA lbl2 60 30, mkA lblR 90 30,
   mkA lblW 120 30, mkA lblR 150 30, mkA lbl2 180 30]

/-- Stream with efficiency below 50, AHI at least 30, arousal index at least
20, no REM, and eleven tachycardia markers: every bonus tier misses and the
largest penalty applies. -/
def exPenalty : List Annot :=
  [mkA lblW 0 30, mkA lblW 30 30, mkA lbl1 60 30, mkA lblActivationEvt 90 0,
   mkA lblObstrApnea 95 0] ++ List.replicate 11 (mkA "Тахикардия(pointTachycardia)" 0 0)

/-- Stream with respiratory and arousal events but no sleep epochs. -/
def exNoSleep : List Annot :=
  [mkA lblObstrApnea 0 0, mkA lblW 0 30, mkA lblActivationEvt 5 0]

/-- A qualifying sleep epoch at elapsed time 0, followed by a REM epoch. -/
def exOnsetZero : List Annot := [mkA lbl2 0 30, mkA lblR 30 30]

/-- Heart-rate trace: a 10-run above threshold, a reset sample, a 12-run,
a 9-run, and a final bradycardia-side sample. -/
def exHr : List ℚ :=
  List.replicate 10 101 ++ [60] ++ List.replicate 12 102 ++ List.replicate 9 103 ++ [40]

/-- Six retained heart rates. -/
def exRates : List ℚ := [60, 72, 55, 81, 64, 77]

/-- Three pooled respiratory rates. -/
def exResp : List ℚ := [12, 14, 16]

/-- Recording with three reference onsets 0, 20, 21 (one qualifying gap). -/
def exRawGaps : Raw :=
  ⟨1, 100, some [mkA heartbeatMarker 0 0, mkA heartbeatMarker 20 0, mkA heartbeatMarker 21 0]⟩

/-- Recording without an annotation stream. -/
def exRawNoAnn : Raw := ⟨1, 100, none⟩

/-- Recording with a single reference onset. -/
def exRawOneMarker : Raw := ⟨1, 100, some [mkA heartbeatMarker 3 0]⟩

/-- The membership test an annotation must pass to add one epoch to the tally
of the stage labelled `lbl`. -/
def isStageEpoch (lbl : String) (a : Annot) : Bool := (a.desc == lbl) && tol30 a.duration


lemma countP_isStageEpoch_cons (lbl : String) (a : Annot) (rest : List Annot) :
    (a :: rest).countP (isStageEpoch lbl) =
      rest.countP (isStageEpoch lbl) + (if isStageEpoch lbl a then 1 else 0) := by
  simp [List.countP_cons]

lemma foldl_stages_spec (anns : List Annot) : ∀ st : SleepStages,
    anns.foldl stagesStep st =
      ⟨⟨st.wake.count + anns.countP (isStageEpoch lblW),
        st.wake.minutes + (anns.countP (isStageEpoch lblW) : ℚ) / 2⟩,
       ⟨st.n1.count + anns.countP (isStageEpoch lbl1),
        st.n1.minutes + (anns.countP (isStageEpoch lbl1) : ℚ) / 2⟩,
       ⟨st.n2.count + anns.countP (isStageEpoch lbl2),
        st.n2.minutes + (anns.countP (isStageEpoch lbl2) : ℚ) / 2⟩,
       ⟨st.n3.count + anns.countP (isStageEpoch lbl3),
        st.n3.minutes + (anns.countP (isStageEpoch lbl3) : ℚ) / 2⟩,
       ⟨st.rem.count + anns.countP (isStageEpoch lblR),
        st.rem.minutes + (anns.countP (isStageEpoch lblR) : ℚ) / 2⟩,
       ⟨st.unknown.count + anns.countP (isStageEpoch lblU),
        st.unknown.minutes + (anns.countP (isStageEpoch lblU) : ℚ) / 2⟩⟩ := by
  induction anns with
  | nil => intro st; simp
  | cons a rest ih =>
    intro st
    rw [List.foldl_cons, ih (stagesStep st a)]
    unfold stagesStep
    by_cases h30 : tol30 a.duration = true
    · simp only [h30, if_true]
      split_ifs with h1 h2 h3 h4 h5 h6 <;>
        simp_all [isStageEpoch, addEpoch, List.countP_cons, lblW, lbl1, lbl2, lbl3, lblR, lblU,
          SleepStages.mk.injEq, StageTally.mk.injEq] <;> (try ring_nf)
      all_goals exact ⟨trivial, trivial⟩
    · simp_all [isStageEpoch, List.countP_cons, SleepStages.mk.injEq, StageTally.mk.injEq]

lemma foldl_stages5_spec (anns : List Annot) : ∀ st : SleepStages5,
    anns.foldl stagesStep5 st =
      ⟨⟨st.wake.count + anns.countP (isStageEpoch lblW),
        st.wake.minutes + (anns.countP (isStageEpoch lblW) : ℚ) / 2⟩,
       ⟨st.n1.count + anns.countP (isStageEpoch lbl1),
        st.n1.minutes + (anns.countP (isStageEpoch lbl1) : ℚ) / 2⟩,
       ⟨st.n2.count + anns.countP (isStageEpoch lbl2),
        st.n2.minutes + (anns.countP (isStageEpoch lbl2) : ℚ) / 2⟩,
       ⟨st.n3.count + anns.countP (isStageEpoch lbl3),
        st.n3.minutes + (anns.countP (isStageEpoch lbl3) : ℚ) / 2⟩,
       ⟨st.rem.count + anns.countP (isStageEpoch lblR),
        st.rem.minutes + (anns.countP (isStageEpoch lblR) : ℚ) / 2⟩⟩ := by
  induction anns with
  | nil => intro st; simp
  | cons a rest ih =>
    intro st
    rw [List.foldl_cons, ih (stagesStep5 st a)]
    unfold stagesStep5
    by_cases h30 : tol30 a.duration = true
    · simp only [h30, if_true]
      split_ifs with h1 h2 h3 h4 h5 <;>
        simp_all [isStageEpoch, addEpoch, List.countP_cons, lblW, lbl1, lbl2, lbl3, lblR, lblU,
          SleepStages5.mk.injEq, StageTally.mk.injEq] <;> (try ring_nf)
      all_goals exact ⟨trivial, trivial⟩
    · simp_all [isStageEpoch, List.countP_cons, SleepStages5.mk.injEq, StageTally.mk.injEq]

/-- Claim C1 (amended): in `calculate_stages` an annotation contributes one
epoch iff its description is one of the SIX handled labels (the five sleep
stages plus Unknown) and its duration `d` satisfies `|d - 30| < 1` — a
29.1 s event counts but a 28.9 s event does not, since `|28.9 - 30| = 1.1`;
in `calculate_sleep_stages` (edf30) the same rule holds with exactly the
five sleep-stage labels.  Each stage's count equals the number of its
qualifying annotations, and minutes = count × 0.5 for every stage. -/
theorem calculate_stages_epoch_rule (anns : List Annot) :
    ((calculate_stages anns).wake.count = anns.countP (isStageEpoch lblW) ∧
      (calculate_stages anns).wake.minutes = ((calculate_stages anns).wake.count : ℚ) / 2) ∧
    ((calculate_stages anns).n1.count = anns.countP (isStageEpoch lbl1) ∧
      (calculate_stages anns).n1.minutes = ((calculate_stages anns).n1.count : ℚ) / 2) ∧
    ((calculate_stages anns).n2.count = anns.countP (isStageEpoch lbl2) ∧
      (calculate_stages anns).n2.minutes = ((calculate_stages anns).n2.count : ℚ) / 2) ∧
    ((calculate_stages anns).n3.count = anns.countP (isStageEpoch lbl3) ∧
      (calculate_stages anns).n3.minutes = ((calculate_stages anns).n3.count : ℚ) / 2) ∧
    ((calculate_stages anns).rem.count = anns.countP (isStageEpoch lblR) ∧
      (calculate_stages anns).rem.minutes = ((calculate_stages anns).rem.count : ℚ) / 2) ∧
    ((calculate_stages anns).unknown.count = anns.countP (isStageEpoch lblU) ∧
      (calculate_stages anns).unknown.minutes = ((calculate_stages anns).unknown.count : ℚ) / 2) ∧
    ((calculate_sleep_stages anns).wake.count = anns.countP (isStageEpoch lblW) ∧
      (calculate_sleep_stages anns).wake.minutes = ((calculate_sleep_stages anns).wake.count : ℚ) / 2) ∧
    ((calculate_sleep_stages anns).n1.count = anns.countP (isStageEpoch lbl1) ∧
      (calculate_sleep_stages anns).n1.minutes = ((calculate_sleep_stages anns).n1.count : ℚ) / 2) ∧
    ((calculate_sleep_stages anns).n2.count = anns.countP (isStageEpoch lbl2) ∧
      (calculate_sleep_stages anns).n2.minutes = ((calculate_sleep_stages anns).n2.count : ℚ) / 2) ∧
    ((calculate_sleep_stages anns).n3.count = anns.countP (isStageEpoch lbl3) ∧
      (calculate_sleep_stages anns).n3.minutes = ((calculate_sleep_stages anns).n3.count : ℚ) / 2) ∧
    ((calculate_sleep_stages anns).rem.count = anns.countP (isStageEpoch lblR) ∧
      (calculate_sleep_stages anns).rem.minutes = ((calculate_sleep_stages anns).rem.count : ℚ) / 2) := by
  have h := foldl_stages_spec anns stagesInit
  have h5 := foldl_stages5_spec anns stagesInit5
  simp only [calculate_stages, calculate_sleep_stages] at *
  rw [h, h5]
  simp [stagesInit, stagesInit5]

/-- Claim C1 counterexample: the claim's parenthetical says a 28.9 s
five-label event contributes an epoch — the code rejects it
(`|28.9 - 30| = 1.1 ≥ 1`, N2 count stays 0); and the claim's "only the five
sleep-stage labels contribute" fails in `calculate_stages`, where a 30 s
Unknown-labelled event contributes one epoch to the Unknown tally. -/
theorem calculate_stages_claim_cex :
    (calculate_stages exN2Short).n2.count = 0 ∧
    (calculate_stages exUnknown30).unknown.count = 1 ∧
    (calculate_stages exUnknown30).unknown.minutes = 1/2 := by with_unfolding_all decide

lemma stages_minutes_nonneg (anns : List Annot) :
    0 ≤ (calculate_stages anns).wake.minutes ∧ 0 ≤ (calculate_stages anns).n1.minutes ∧
    0 ≤ (calculate_stages anns).n2.minutes ∧ 0 ≤ (calculate_stages anns).n3.minutes ∧
    0 ≤ (calculate_stages anns).rem.minutes ∧ 0 ≤ (calculate_stages anns).unknown.minutes := by
  have h := foldl_stages_spec anns stagesInit
  simp only [calculate_stages]
  rw [h]
  simp [stagesInit]
  refine ⟨?_, ?_, ?_, ?_, ?_, ?_⟩ <;> positivity

/-- Claim C2 (amended): the efficiency computed by `calculate_efficiency`
over a `calculate_stages` tally is (N1+N2+N3+REM minutes) divided by the
sum of all SIX tallies' minutes (the five stages plus Unknown) times 100,
0 when that denominator is 0; it always lies in [0, 100], and equals 100
exactly when both Wake minutes and Unknown minutes are 0 while total bed
time is positive. -/
theorem efficiency_bounds (anns : List Annot) :
    0 ≤ (calculate_efficiency (calculate_stages anns)).sleep_efficiency ∧
    (calculate_efficiency (calculate_stages anns)).sleep_efficiency ≤ 100 ∧
    ((calculate_efficiency (calculate_stages anns)).sleep_efficiency = 100 ↔
      ((calculate_stages anns).wake.minutes = 0 ∧ (calculate_stages anns).unknown.minutes = 0 ∧
        0 < (calculate_efficiency (calculate_stages anns)).total_bed_time)) := by
  obtain ⟨hw, h1, h2, h3, hr, hu⟩ := stages_minutes_nonneg anns
  set st := calculate_stages anns with hst
  unfold calculate_efficiency
  dsimp only
  set s := st.n1.minutes + st.n2.minutes + st.n3.minutes + st.rem.minutes with hs
  set b := st.wake.minutes + st.n1.minutes + st.n2.minutes + st.n3.minutes +
    st.rem.minutes + st.unknown.minutes with hb
  have hs0 : 0 ≤ s := by positivity
  have hsb : s ≤ b := by rw [hs, hb]; linarith
  by_cases hbpos : 0 < b
  · have hbne : b ≠ 0 := ne_of_gt hbpos
    rw [if_pos hbpos]
    refine ⟨by positivity, ?_, ?_⟩
    · have hdiv : s / b ≤ 1 := (div_le_one hbpos).2 hsb
      nlinarith
    · constructor
      · intro h
        have hsb2 : s = b := by
          have hdiv : s / b = 1 := by
            have h100 : s / b * 100 = 100 := h
            nlinarith
          rw [div_eq_one_iff_eq hbne] at hdiv
          linarith
        refine ⟨by linarith, by linarith, hbpos⟩
      · rintro ⟨hw0, hu0, -⟩
        have hsb2 : s = b := by rw [hs, hb]; linarith
        rw [hsb2, div_self hbne]
        norm_num
  · rw [if_neg hbpos]
    refine ⟨le_refl 0, by norm_num, ?_⟩
    constructor
    · intro h
      exact absurd h (by norm_num)
    · rintro ⟨-, -, hb2⟩
      exact absurd hb2 hbpos

/-- Claim C2 counterexample: for one N2 epoch plus one Unknown epoch the
code reports efficiency 50 although Wake minutes are 0 and bed time is
positive (the claim predicts exactly 100 there), while the claim's
five-stage-denominator formula would give 100. -/
theorem efficiency_claim_cex :
    (calculate_efficiency (calculate_stages exN2U)).sleep_efficiency = 50 ∧
    spec_efficiency_five_stage (calculate_stages exN2U) = 100 ∧
    (calculate_stages exN2U).wake.minutes = 0 ∧
    0 < (calculate_efficiency (calculate_stages exN2U)).total_bed_time := by
  with_unfolding_all decide

/-- Claim C3 (amended): a Wake epoch while a REM cycle is open resets the
scan to idle without incrementing (and a Wake step never changes the cycle
counter in any state); but for the literal stage sequence
[N2, R, N2, R, W, R, N2] `calculate_rem_cycles` returns 0, not 1: the first
R opens a cycle (the opening branch has priority over the closing branch,
so a lone R epoch cannot close), the Wake aborts it, and the final R finds
no open cycle. -/
theorem rem_cycles_wake_reset :
    (∀ (p n : Stg) (c : Nat) (r : Bool), remStep p Stg.W n ⟨c, true, r⟩ = ⟨c, false, false⟩) ∧
    (∀ (p n : Stg) (st : RemCycleState), (remStep p Stg.W n st).cycles = st.cycles) ∧
    calculate_rem_cycles exRemSeq = 0 := by
  refine ⟨?_, ?_, ?_⟩
  · intro p n c r
    simp [remStep]
  · intro p n st
    rcases st with ⟨c, ir, rs⟩
    cases ir <;> simp [remStep]
  · with_unfolding_all decide

/-- Claim C3 counterexample: the claim requires the literal sequence
[N2, R, N2, R, W, R, N2] to yield exactly 1 REM cycle; the code yields 0. -/
theorem rem_cycles_claim_cex : calculate_rem_cycles exRemSeq ≠ 1 := by
  with_unfolding_all decide

lemma pyInt_le_100 (q : ℚ) (h : q ≤ 100) : pyInt q ≤ 100 := by
  unfold pyInt
  split_ifs with h0
  · calc ⌊q⌋ ≤ ⌊(100:ℚ)⌋ := Int.floor_le_floor h
      _ = 100 := by norm_num
  · have hq : (0:ℤ) ≤ ⌊-q⌋ := Int.floor_nonneg.2 (by linarith)
    linarith

lemma pyInt_ge_neg15 (q : ℚ) (h : -15 ≤ q) : -15 ≤ pyInt q := by
  unfold pyInt
  split_ifs with h0
  · have hq : (0:ℤ) ≤ ⌊q⌋ := Int.floor_nonneg.2 h0
    linarith
  · have h1 : -q ≤ 15 := by linarith
    have h2 : ⌊-q⌋ ≤ ⌊(15:ℚ)⌋ := Int.floor_le_floor h1
    have h15 : ⌊(15:ℚ)⌋ = 15 := by norm_num
    omega

lemma efficiencyPoints_nonneg (e : ℚ) : 0 ≤ efficiencyPoints e := by
  unfold efficiencyPoints
  split_ifs <;> norm_num

lemma ahiPoints_nonneg (a : ℚ) : 0 ≤ ahiPoints a := by
  unfold ahiPoints
  split_ifs <;> norm_num

lemma arousalPoints_nonneg (a : ℚ) : 0 ≤ arousalPoints a := by
  unfold arousalPoints
  split_ifs <;> norm_num

lemma cyclePoints_nonneg (c : Nat) : 0 ≤ cyclePoints c := by
  unfold cyclePoints
  split_ifs <;> norm_num

lemma hrPenalty_ge (t b : Nat) : -15 ≤ hrPenalty t b := by
  unfold hrPenalty
  split_ifs <;> norm_num

lemma rem_quality_score_nonneg (anns : List Annot) :
    0 ≤ (calculate_rem_quality anns).rem_quality_score := by
  unfold calculate_rem_quality
  dsimp only
  refine le_min ?_ (by norm_num)
  split_ifs <;> norm_num

lemma sleepQualityScore_ge (anns : List Annot) : -15 ≤ sleepQualityScore anns := by
  unfold sleepQualityScore
  dsimp only
  have hE := efficiencyPoints_nonneg (calculate_efficiency (calculate_stages anns)).sleep_efficiency
  have hA := ahiPoints_nonneg (((calculate_indices anns).map IndicesResult.ahi).getD 0)
  have hR := arousalPoints_nonneg (calculate_fragmentation anns).arousal_index
  have hC := cyclePoints_nonneg (calculate_rem_cycles anns)
  have hP := hrPenalty_ge (tachycardia_events anns) (bradycardia_events anns)
  have hQ : 0 ≤ (calculate_rem_quality anns).rem_quality_score * (15/100) :=
    mul_nonneg (rem_quality_score_nonneg anns) (by norm_num)
  split_ifs <;> linarith

/-- Claim C4 (amended): the composite score is clamped to at most 100 —
even when every bonus tier and the REM-quality contribution are maxed —
but it is NOT clamped below at 0: the code applies only `min(score, 100)`,
so with every bonus missed and the largest penalty the reported value goes
down to −15, its true lower bound. -/
theorem sleep_quality_clamped (anns : List Annot) :
    -15 ≤ calculate_sleep_quality anns ∧ calculate_sleep_quality anns ≤ 100 := by
  unfold calculate_sleep_quality
  constructor
  · exact pyInt_ge_neg15 _ (le_min (sleepQualityScore_ge anns) (by norm_num))
  · exact pyInt_le_100 _ (min_le_right _ _)

set_option maxRecDepth 100000 in
/-- Claim C4 counterexample: a stream with efficiency below 50, AHI ≥ 30,
arousal index ≥ 20, no REM and eleven tachycardia markers is scored −15 by
`calculate_sleep_quality` — below the claimed lower bound 0. -/
theorem sleep_quality_claim_cex :
    calculate_sleep_quality exPenalty = -15 := by with_unfolding_all decide

lemma round2_zero : round2 0 = 0 := by with_unfolding_all rfl

/-- Claim C5 (confirmed): when total sleep time (N1+N2+N3+REM minutes) is 0,
the reported AHI, ODI, snore index, fragmentation index and arousal index
are all 0 — `calculate_indices` takes its guarded `{}` branch before any
division, and `calculate_fragmentation` defines both of its per-hour
indices as 0 — and every function involved is total (no exception, no
division is evaluated on a zero denominator). -/
theorem indices_zero_when_no_sleep (anns : List Annot) (h : totalSleepMinutes anns = 0) :
    reported_ahi anns = 0 ∧ reported_odi anns = 0 ∧ reported_snore_index anns = 0 ∧
    reported_fragmentation_index anns = 0 ∧ reported_arousal_index anns = 0 ∧
    calculate_indices anns = none := by
  have hi : calculate_indices anns = none := by
    unfold calculate_indices
    simp [h]
  have hfrag : ¬ (0 < totalSleepMinutes anns) := by
    rw [h]
    exact lt_irrefl 0
  refine ⟨?_, ?_, ?_, ?_, ?_, hi⟩ <;>
    simp [reported_ahi, reported_odi, reported_snore_index, reported_fragmentation_index,
      reported_arousal_index, calculate_fragmentation, hi, hfrag, round2_zero]

/-- Claim C5 witness: a stream with an apnea, a Wake epoch and an activation
but no sleep epochs has zero sleep time, and every reported index is 0. -/
theorem indices_zero_witness :
    reported_ahi exNoSleep = 0 ∧ reported_odi exNoSleep = 0 ∧
    reported_snore_index exNoSleep = 0 ∧ reported_fragmentation_index exNoSleep = 0 ∧
    reported_arousal_index exNoSleep = 0 ∧ calculate_indices exNoSleep = none :=
  indices_zero_when_no_sleep exNoSleep (by with_unfolding_all rfl)

lemma latStep_mk (fs fr : Option ℚ) (t : ℚ) (a : Annot) :
    latStep ⟨fs, fr, t⟩ a =
      ⟨if isSleepEpoch a = true ∧ fs = none then some t else fs,
       if isRemEpoch a = true ∧ fr = none then some t else fr,
       t + a.duration⟩ := by
  have h1 : (sleepLbls.contains a.desc = true ∧ fs = none ∧ tol30 a.duration = true) ↔
      (isSleepEpoch a = true ∧ fs = none) := by
    simp only [isSleepEpoch, Bool.and_eq_true]
    tauto
  have h2 : (a.desc = lblR ∧ fr = none ∧ tol30 a.duration = true) ↔
      (isRemEpoch a = true ∧ fr = none) := by
    simp only [isRemEpoch, Bool.and_eq_true, beq_iff_eq]
    tauto
  unfold latStep
  dsimp only
  rw [if_congr h1 rfl rfl, if_congr h2 rfl rfl]

lemma foldl_latStep_fs_some (anns : List Annot) : ∀ (s : ℚ) (fr : Option ℚ) (t : ℚ),
    (anns.foldl latStep ⟨some s, fr, t⟩).first_sleep = some s := by
  induction anns with
  | nil => intro s fr t; rfl
  | cons a rest ih =>
    intro s fr t
    rw [List.foldl_cons, latStep_mk, if_neg (by simp)]
    apply ih

lemma foldl_latStep_fr_some (anns : List Annot) : ∀ (fs : Option ℚ) (r : ℚ) (t : ℚ),
    (anns.foldl latStep ⟨fs, some r, t⟩).first_rem = some r := by
  induction anns with
  | nil => intro fs r t; rfl
  | cons a rest ih =>
    intro fs r t
    rw [List.foldl_cons, latStep_mk]
    have hfr : (if isRemEpoch a = true ∧ (some r : Option ℚ) = none then some t else some r) =
        some r := by
      rw [if_neg]
      rintro ⟨-, hc⟩
      exact Option.some_ne_none r hc
    rw [hfr]
    apply ih

lemma foldl_latStep_fs_none (anns : List Annot) : ∀ (fr : Option ℚ) (t : ℚ),
    (anns.foldl latStep ⟨none, fr, t⟩).first_sleep =
      (match anns.findIdx? isSleepEpoch with
       | some i => some (t + ((anns.take i).map Annot.duration).sum)
       | none => none) := by
  induction anns with
  | nil => intro fr t; rfl
  | cons a rest ih =>
    intro fr t
    rw [List.foldl_cons, latStep_mk]
    by_cases hp : isSleepEpoch a = true
    · rw [if_pos ⟨hp, rfl⟩, foldl_latStep_fs_some]
      simp [List.findIdx?_cons, hp]
    · rw [if_neg (fun hc => hp hc.1), ih]
      simp only [List.findIdx?_cons, hp, if_neg, Bool.false_eq_true, if_false,
        List.findIdx?_start_succ, Nat.zero_add]
      rcases rest.findIdx? isSleepEpoch with _ | i
      · simp
      · simp [List.take_succ_cons]
        ring

lemma foldl_latStep_fr_none (anns : List Annot) : ∀ (fs : Option ℚ) (t : ℚ),
    (anns.foldl latStep ⟨fs, none, t⟩).first_rem =
      (match anns.findIdx? isRemEpoch with
       | some i => some (t + ((anns.take i).map Annot.duration).sum)
       | none => none) := by
  induction anns with
  | nil => intro fs t; rfl
  | cons a rest ih =>
    intro fs t
    rw [List.foldl_cons, latStep_mk]
    by_cases hp : isRemEpoch a = true
    · have hfr : (if isRemEpoch a = true ∧ (none : Option ℚ) = none then some t else none) =
          some t := if_pos ⟨hp, rfl⟩
      rw [hfr, foldl_latStep_fr_some]
      simp [List.findIdx?_cons, hp]
    · have hfr : (if isRemEpoch a = true ∧ (none : Option ℚ) = none then some t else none) =
          none := if_neg (fun hc => hp hc.1)
      rw [hfr, ih]
      simp only [List.findIdx?_cons, hp, Bool.false_eq_true, if_false,
        List.findIdx?_start_succ, Nat.zero_add]
      rcases rest.findIdx? isRemEpoch with _ | i
      · simp
      · simp [List.take_succ_cons]
        ring

/-- Claim C6 (amended): the reported sleep-onset latency is the elapsed time
(cumulative duration of all preceding annotations) at the first qualifying
N1/N2/N3/REM 30-second epoch, divided by 60, EXCEPT when that elapsed time
is 0: Python's truthiness test (`if first_sleep`) then reports None.  The
REM latency is (elapsed at first REM epoch − elapsed at sleep onset) / 60
exactly when both epochs exist AND both elapsed times are nonzero. -/
theorem latencies_characterization (anns : List Annot) :
    (calculate_latencies anns).1 =
      (match elapsedAtFirst isSleepEpoch anns with
       | some t => if t = 0 then none else some (t / 60)
       | none => none) ∧
    (calculate_latencies anns).2 =
      (match elapsedAtFirst isSleepEpoch anns, elapsedAtFirst isRemEpoch anns with
       | some s, some r => if s = 0 ∨ r = 0 then none else some ((r - s) / 60)
       | _, _ => none) := by
  unfold calculate_latencies elapsedAtFirst
  dsimp only
  rw [foldl_latStep_fs_none anns none 0, foldl_latStep_fr_none anns none 0]
  rcases h1 : anns.findIdx? isSleepEpoch with _ | i <;>
    rcases h2 : anns.findIdx? isRemEpoch with _ | j <;>
      simp [h1, h2]

/-- Claim C6 counterexample: for a stream whose first annotation is a
qualifying N2 epoch (elapsed time 0) followed by a REM epoch, the claim
requires a reported onset latency of 0 and a defined REM latency; the code
reports None for both, although the first sleep epoch and the first REM
epoch both exist. -/
theorem latencies_claim_cex :
    calculate_latencies exOnsetZero = (none, none) ∧
    elapsedAtFirst isSleepEpoch exOnsetZero = some 0 ∧
    elapsedAtFirst isRemEpoch exOnsetZero = some 30 := by
  with_unfolding_all decide
lemma countQualRuns_expand (p : ℚ → Bool) (m : Nat) (hm : 0 < m) (l : List ℚ) :
    countQualRuns p m l =
      (if m ≤ (l.takeWhile p).length then 1 else 0) + countQualRuns p m (l.dropWhile p) := by
  rcases l with _ | ⟨x, xs⟩
  · simp only [List.takeWhile_nil, List.dropWhile_nil, List.length_nil]
    simp only [countQualRuns]
    rw [if_neg (by omega)]
  · by_cases hx : p x = true
    · rw [countQualRuns]
      simp only [hx, if_true, List.dropWhile_cons]
    · rw [countQualRuns]
      simp only [hx, Bool.false_eq_true, if_false]
      rw [List.takeWhile_cons, List.dropWhile_cons]
      simp only [hx, Bool.false_eq_true, if_false, List.length_nil]
      rw [if_neg (by omega)]
      conv_rhs => rw [countQualRuns]
      simp only [hx, Bool.false_eq_true, if_false]
      omega

lemma epGo_general (p : ℚ → Bool) (m : Nat) (hm : 0 < m) : ∀ (l : List ℚ) (c acc : Nat),
    epGo p m c (decide (m ≤ c)) acc l =
      acc + (if c < m ∧ m ≤ c + (l.takeWhile p).length then 1 else 0) +
        countQualRuns p m (l.dropWhile p) := by
  intro l
  induction l with
  | nil =>
    intro c acc
    simp only [epGo, List.takeWhile_nil, List.length_nil, List.dropWhile_nil]
    simp only [countQualRuns]
    rw [if_neg (by omega)]
    omega
  | cons x xs ih =>
    intro c acc
    by_cases hx : p x = true
    · rw [epGo]
      simp only [hx, if_true]
      rw [List.takeWhile_cons, List.dropWhile_cons]
      simp only [hx, if_true, List.length_cons]
      by_cases hcm : m ≤ c
      · rw [if_neg (by simp [hcm])]
        have he : (decide (m ≤ c) : Bool) = decide (m ≤ c + 1) := by
          simp only [decide_eq_decide]
          omega
        rw [he, ih (c + 1) acc]
        rw [if_neg (by omega), if_neg (by omega)]
      · by_cases hfire : m ≤ c + 1
        · rw [if_pos ⟨hfire, by simp [hcm]⟩]
          have he : epGo p m (c + 1) true (acc + 1) xs =
              epGo p m (c + 1) (decide (m ≤ c + 1)) (acc + 1) xs := by
            rw [decide_eq_true hfire]
          rw [he, ih (c + 1) (acc + 1)]
          rw [if_neg (by omega), if_pos (by constructor <;> omega)]
        · rw [if_neg (by rintro ⟨hc1, -⟩; exact hfire hc1)]
          have he : (decide (m ≤ c) : Bool) = decide (m ≤ c + 1) := by
            simp only [decide_eq_decide]
            omega
          rw [he, ih (c + 1) acc]
          by_cases hrun : m ≤ c + 1 + (xs.takeWhile p).length
          · rw [if_pos (by constructor <;> omega), if_pos (by constructor <;> omega)]
          · rw [if_neg (by rintro ⟨-, hc2⟩; exact hrun (by omega)),
              if_neg (by rintro ⟨-, hc2⟩; exact hrun (by omega))]
    · rw [epGo]
      simp only [hx, Bool.false_eq_true, if_false]
      have he : epGo p m 0 false acc xs = epGo p m 0 (decide (m ≤ 0)) acc xs := by
        rw [decide_eq_false (by omega)]
      rw [he, ih 0 acc]
      rw [List.takeWhile_cons, List.dropWhile_cons]
      simp only [hx, Bool.false_eq_true, if_false, List.length_nil]
      rw [if_neg (by omega : ¬ (c < m ∧ m ≤ c + 0))]
      conv_rhs => rw [countQualRuns]
      simp only [hx, Bool.false_eq_true, if_false]
      rw [countQualRuns_expand p m hm xs]
      have hiff : (0 < m ∧ m ≤ 0 + (xs.takeWhile p).length) ↔ (m ≤ (xs.takeWhile p).length) := by
        omega
      rw [if_congr hiff rfl rfl]
      ring

lemma epGo_counts (p : ℚ → Bool) (m : Nat) (hm : 0 < m) (l : List ℚ) (acc : Nat) :
    epGo p m 0 false acc l = acc + countQualRuns p m l := by
  have he : epGo p m 0 false acc l = epGo p m 0 (decide (m ≤ 0)) acc l := by
    rw [decide_eq_false (by omega)]
  rw [he, epGo_general p m hm l 0 acc, countQualRuns_expand p m hm l]
  have hiff : (0 < m ∧ m ≤ 0 + (l.takeWhile p).length) ↔ (m ≤ (l.takeWhile p).length) := by
    omega
  rw [if_congr hiff rfl rfl]
  ring

lemma foldl_hrStep_spec (hrs : List ℚ) : ∀ st : HrScanState,
    (hrs.foldl hrStep st).tachy_events =
      epGo (fun hr => decide (tachyThreshold < hr)) minConsecutiveEvents
        st.tachy_count st.tachy_episode st.tachy_events hrs ∧
    (hrs.foldl hrStep st).brady_events =
      epGo (fun hr => decide (hr < bradyThreshold)) minConsecutiveEvents
        st.brady_count st.brady_episode st.brady_events hrs := by
  induction hrs with
  | nil => intro st; exact ⟨rfl, rfl⟩
  | cons x xs ih =>
    intro st
    rw [List.foldl_cons]
    refine ⟨((ih (hrStep st x)).1).trans ?_, ((ih (hrStep st x)).2).trans ?_⟩ <;>
      unfold hrStep <;>
      by_cases h1 : tachyThreshold < x <;>
      by_cases h2 : x < bradyThreshold <;>
      by_cases h3 : minConsecutiveEvents ≤ st.tachy_count + 1 ∧ st.tachy_episode = false <;>
      by_cases h4 : minConsecutiveEvents ≤ st.brady_count + 1 ∧ st.brady_episode = false <;>
      by_cases h5 : st.tachy_episode = true <;>
      by_cases h6 : st.brady_episode = true <;>
      simp only [epGo, h1, h2, h3, h4] <;>
      simp_all [epGo, apply_ite, ite_self] <;>
      (try rw [decide_eq_false (by omega), if_neg (by omega)])

/-- Claim C7 (confirmed): the hysteresis scan of
`_detect_heart_rate_episodes` counts, for each direction, exactly the
number of maximal runs of consecutive samples above the tachycardia
threshold (resp. below the bradycardia threshold) whose length reaches the
minimum-consecutive-samples parameter (10): qualifying runs are counted
once, when the counter first reaches the minimum with no episode open, and
any non-qualifying sample resets the counter and closes the episode. -/
theorem detect_episodes_counts_runs (hrs : List ℚ) :
    detect_heart_rate_episodes hrs =
      (countQualRuns (fun hr => decide (tachyThreshold < hr)) minConsecutiveEvents hrs,
       countQualRuns (fun hr => decide (hr < bradyThreshold)) minConsecutiveEvents hrs) := by
  obtain ⟨h1, h2⟩ := foldl_hrStep_spec hrs ⟨0, 0, false, false, 0, 0⟩
  dsimp only at h1 h2
  unfold detect_heart_rate_episodes
  dsimp only
  rw [h1, h2, epGo_counts _ _ (by norm_num [minConsecutiveEvents]) hrs 0,
    epGo_counts _ _ (by norm_num [minConsecutiveEvents]) hrs 0]
  simp

/-- Claim C8 (confirmed): on raw masked samples — before the time
extrapolation — the count of valid, in-range samples strictly below 90 is
at least the count strictly below 85, for every sample sequence and
validity mask: a sample below 85 is in particular below 90, all other
conjuncts of the two predicates being identical. -/
theorem spo2_below_counts_monotone (samples : List ℚ) (mask : List Bool) :
    countBelow 85 samples mask ≤ countBelow 90 samples mask := by
  unfold countBelow
  apply List.countP_mono_left
  intro vm _ h
  simp only [Bool.and_eq_true, decide_eq_true_eq] at h
  simp only [Bool.and_eq_true, decide_eq_true_eq]
  obtain ⟨⟨⟨h85, hm⟩, hlo⟩, hhi⟩ := h
  exact ⟨⟨⟨by linarith, hm⟩, hlo⟩, hhi⟩

/-- Claim C9 (confirmed): the artifact-mask builder returns `(none, [])`
when the recording has no annotation stream; with fewer than two reference
onsets the gap computation is skipped and no gap region is produced; and —
for onsets whose start sample lies inside the recording — a
consecutive-onset gap is recorded as a heartbeat dropout iff it exceeds the
max-gap threshold (5.0 s) and is at least the minimum gap duration
(10.0 s). -/
theorem artifact_mask_guards (raw : Raw) :
    (raw.annots = none → get_artifact_mask raw = (none, [])) ∧
    (∀ anns, raw.annots = some anns → (markerTimes anns).length < 2 →
      get_heartbeat_gaps raw = (none, [])) ∧
    (∀ anns, raw.annots = some anns →
      (∀ t ∈ markerTimes anns, pyInt (t * raw.sfreq) < (raw.total_samples : ℤ)) →
      (get_heartbeat_gaps raw).2 =
        ((consecPairs (markerTimes anns)).filter
          (fun p => decide (maxGap < p.2 - p.1) && decide (minGapDuration ≤ p.2 - p.1))).map
          mkGapRegion) := by
  refine ⟨?_, ?_, ?_⟩
  · intro h
    unfold get_artifact_mask
    rw [h]
  · intro anns h hlen
    unfold get_heartbeat_gaps
    rw [h]
    dsimp only
    rw [if_pos hlen]
  · intro anns h hin
    unfold get_heartbeat_gaps
    rw [h]
    dsimp only
    by_cases hlen : (markerTimes anns).length < 2
    · rw [if_pos hlen]
      rcases hm : markerTimes anns with _ | ⟨a, rest⟩
      · simp [consecPairs]
      · rcases rest with _ | ⟨b, rest2⟩
        · simp [consecPairs]
        · rw [hm] at hlen
          simp only [List.length_cons] at hlen
          omega
    · rw [if_neg hlen]
      dsimp only
      congr 1
      apply List.filter_congr
      intro p hp
      rcases p with ⟨a, b⟩
      have hmem : a ∈ markerTimes anns := (List.of_mem_zip hp).1
      unfold gapRecorded
      rw [decide_eq_true (hin a hmem), Bool.and_true]

/-- Claim C9 witness: a recording without annotations yields `(none, [])`;
one with a single reference onset yields `(none, [])` from the gap
computation; and with onsets 0, 20, 21 inside the recording exactly the
20-second gap is recorded as a heartbeat dropout. -/
theorem artifact_mask_guards_witness :
    get_artifact_mask exRawNoAnn = (none, []) ∧
    get_heartbeat_gaps exRawOneMarker = (none, []) ∧
    (get_heartbeat_gaps exRawGaps).2 =
      [{ start_time := 0, end_time := 20, duration := 20, kind := some "heartbeat_gap" }] := by
  refine ⟨(artifact_mask_guards exRawNoAnn).1 rfl,
    (artifact_mask_guards exRawOneMarker).2.1 [mkA heartbeatMarker 3 0] rfl
      (by with_unfolding_all decide), ?_⟩
  have h3 := (artifact_mask_guards exRawGaps).2.2
    [mkA heartbeatMarker 0 0, mkA heartbeatMarker 20 0, mkA heartbeatMarker 21 0] rfl
    (by with_unfolding_all decide)
  rw [h3]
  with_unfolding_all decide

lemma floor_le_roundHalfEven (x : ℚ) : ⌊x⌋ ≤ roundHalfEven x := by
  unfold roundHalfEven
  dsimp only
  split_ifs <;> omega

lemma roundHalfEven_le_floor_add_one (x : ℚ) : roundHalfEven x ≤ ⌊x⌋ + 1 := by
  unfold roundHalfEven
  dsimp only
  split_ifs <;> omega

lemma roundHalfEven_mono {x y : ℚ} (h : x ≤ y) : roundHalfEven x ≤ roundHalfEven y := by
  have hn : ⌊x⌋ ≤ ⌊y⌋ := Int.floor_le_floor h
  rcases lt_or_eq_of_le hn with hlt | heq
  · calc roundHalfEven x ≤ ⌊x⌋ + 1 := roundHalfEven_le_floor_add_one x
      _ ≤ ⌊y⌋ := by omega
      _ ≤ roundHalfEven y := floor_le_roundHalfEven y
  · unfold roundHalfEven
    dsimp only
    rw [← heq]
    have hf : x - ⌊x⌋ ≤ y - ⌊x⌋ := by
      have : ((⌊x⌋ : ℚ)) = ((⌊x⌋ : ℚ)) := rfl
      linarith
    split_ifs <;> first | omega | linarith

lemma round2_mono {x y : ℚ} (h : x ≤ y) : round2 x ≤ round2 y := by
  unfold round2
  have h1 : roundHalfEven (x * 100) ≤ roundHalfEven (y * 100) :=
    roundHalfEven_mono (by linarith)
  have h2 : (roundHalfEven (x * 100) : ℚ) ≤ (roundHalfEven (y * 100) : ℚ) := Int.cast_le.2 h1
  linarith

lemma round1_mono {x y : ℚ} (h : x ≤ y) : round1 x ≤ round1 y := by
  unfold round1
  have h1 : roundHalfEven (x * 10) ≤ roundHalfEven (y * 10) :=
    roundHalfEven_mono (by linarith)
  have h2 : (roundHalfEven (x * 10) : ℚ) ≤ (roundHalfEven (y * 10) : ℚ) := Int.cast_le.2 h1
  linarith

lemma sorted_getD_mono {s : List ℚ} (hs : s.Sorted (fun a b => a ≤ b)) {i j : Nat}
    (hij : i ≤ j) (hj : j < s.length) : s.getD i 0 ≤ s.getD j 0 := by
  have hi : i < s.length := lt_of_le_of_lt hij hj
  rw [List.getD_eq_getElem s 0 hi, List.getD_eq_getElem s 0 hj]
  rcases lt_or_eq_of_le hij with hlt | heq
  · exact List.pairwise_iff_getElem.mp hs i j hi hj hlt
  · subst heq
    exact le_refl _

lemma interpAt_mono {s : List ℚ} (hs : s.Sorted (fun a b => a ≤ b)) (hne : s ≠ [])
    {idx1 idx2 : ℚ} (h0 : 0 ≤ idx1) (h12 : idx1 ≤ idx2) (h2 : idx2 ≤ (s.length : ℚ) - 1) :
    interpAt s idx1 ≤ interpAt s idx2 := by
  have hn1 : 1 ≤ s.length := by
    rcases s with _ | ⟨a, t⟩
    · exact absurd rfl hne
    · simp
  unfold interpAt
  dsimp only
  set k1 := (⌊idx1⌋).toNat with hk1def
  set k2 := (⌊idx2⌋).toNat with hk2def
  have h01 : (0:ℤ) ≤ ⌊idx1⌋ := Int.floor_nonneg.2 h0
  have h02q : 0 ≤ idx2 := le_trans h0 h12
  have h02 : (0:ℤ) ≤ ⌊idx2⌋ := Int.floor_nonneg.2 h02q
  have hc1 : ((k1:ℤ)) = ⌊idx1⌋ := Int.toNat_of_nonneg h01
  have hc2 : ((k2:ℤ)) = ⌊idx2⌋ := Int.toNat_of_nonneg h02
  have hk1le : (k1:ℚ) ≤ idx1 := by
    have h := Int.floor_le idx1
    rw [← hc1] at h
    exact_mod_cast h
  have hk1lt : idx1 < (k1:ℚ) + 1 := by
    have h := Int.lt_floor_add_one idx1
    rw [← hc1] at h
    exact_mod_cast h
  have hk2le : (k2:ℚ) ≤ idx2 := by
    have h := Int.floor_le idx2
    rw [← hc2] at h
    exact_mod_cast h
  have hk2lt : idx2 < (k2:ℚ) + 1 := by
    have h := Int.lt_floor_add_one idx2
    rw [← hc2] at h
    exact_mod_cast h
  have hk12 : k1 ≤ k2 := by
    have h := Int.floor_le_floor h12
    omega
  have hk2n : k2 + 1 ≤ s.length := by
    have ha : (k2:ℚ) ≤ (s.length:ℚ) - 1 := le_trans hk2le h2
    have hb : (k2:ℚ) + 1 ≤ (s.length:ℚ) := by linarith
    exact_mod_cast hb
  have hk2ltn : k2 < s.length := by omega
  rcases Nat.lt_or_ge k1 k2 with hlt | hge
  · have hk1n : k1 + 1 < s.length := by omega
    rw [if_pos hk1n]
    have hd1 : s.getD k1 0 ≤ s.getD (k1 + 1) 0 := sorted_getD_mono hs (Nat.le_succ k1) hk1n
    have hfr1 : idx1 - (k1:ℚ) ≤ 1 := by linarith
    have hup : s.getD k1 0 + (idx1 - (k1:ℚ)) * (s.getD (k1 + 1) 0 - s.getD k1 0) ≤
        s.getD (k1 + 1) 0 := by
      nlinarith [mul_nonneg (by linarith : (0:ℚ) ≤ 1 - (idx1 - (k1:ℚ)))
        (by linarith : (0:ℚ) ≤ s.getD (k1 + 1) 0 - s.getD k1 0)]
    have hmid : s.getD (k1 + 1) 0 ≤ s.getD k2 0 := sorted_getD_mono hs (by omega) hk2ltn
    by_cases hcase : k2 + 1 < s.length
    · rw [if_pos hcase]
      have hd2 : s.getD k2 0 ≤ s.getD (k2 + 1) 0 := sorted_getD_mono hs (Nat.le_succ k2) hcase
      have hlow : s.getD k2 0 ≤
          s.getD k2 0 + (idx2 - (k2:ℚ)) * (s.getD (k2 + 1) 0 - s.getD k2 0) := by
        nlinarith [mul_nonneg (by linarith : (0:ℚ) ≤ idx2 - (k2:ℚ))
          (by linarith : (0:ℚ) ≤ s.getD (k2 + 1) 0 - s.getD k2 0)]
      linarith
    · rw [if_neg hcase]
      have hk2eq : s.length - 1 = k2 := by omega
      rw [hk2eq]
      linarith
  · have heq : k2 = k1 := le_antisymm hge hk12
    rw [heq]
    by_cases hcase : k1 + 1 < s.length
    · rw [if_pos hcase, if_pos hcase]
      have hd1 : s.getD k1 0 ≤ s.getD (k1 + 1) 0 := sorted_getD_mono hs (Nat.le_succ k1) hcase
      have hf12 : idx1 - (k1:ℚ) ≤ idx2 - (k1:ℚ) := by linarith
      have heqq : (k2:ℚ) = (k1:ℚ) := by exact_mod_cast congrArg (Nat.cast : Nat → ℚ) heq
      nlinarith [mul_nonneg (by linarith : (0:ℚ) ≤ (idx2 - (k1:ℚ)) - (idx1 - (k1:ℚ)))
        (by linarith : (0:ℚ) ≤ s.getD (k1 + 1) 0 - s.getD k1 0)]
    · rw [if_neg hcase, if_neg hcase]

lemma percentile_mono (l : List ℚ) (hne : l ≠ []) {q1 q2 : ℚ} (h0 : 0 ≤ q1) (h12 : q1 ≤ q2)
    (h100 : q2 ≤ 100) : percentile l q1 ≤ percentile l q2 := by
  unfold percentile pySort
  dsimp only
  have hperm := List.perm_insertionSort (fun a b : ℚ => a ≤ b) l
  have hlen : (l.insertionSort (fun a b => a ≤ b)).length = l.length := hperm.length_eq
  have hsne : l.insertionSort (fun a b => a ≤ b) ≠ [] := by
    intro h
    apply hne
    rw [← List.length_eq_zero, ← hlen, h]
    rfl
  have hn0 : (l.insertionSort (fun a b => a ≤ b)).length ≠ 0 := by
    intro h
    exact hsne (List.eq_nil_of_length_eq_zero h)
  rw [if_neg hn0, if_neg hn0]
  have hn1 : 1 ≤ (l.insertionSort (fun a b => a ≤ b)).length := Nat.one_le_iff_ne_zero.2 hn0
  have hn1q : (1:ℚ) ≤ ((l.insertionSort (fun a b => a ≤ b)).length : ℚ) := by exact_mod_cast hn1
  apply interpAt_mono (List.sorted_insertionSort (fun a b => a ≤ b) l) hsne
  · apply mul_nonneg (div_nonneg h0 (by norm_num))
    linarith
  · apply mul_le_mul_of_nonneg_right
    · linarith
    · linarith
  · calc q2 / 100 * (((l.insertionSort (fun a b => a ≤ b)).length : ℚ) - 1) ≤
        1 * (((l.insertionSort (fun a b => a ≤ b)).length : ℚ) - 1) := by
          apply mul_le_mul_of_nonneg_right ((div_le_one (by norm_num)).2 h100)
          linarith
      _ = ((l.insertionSort (fun a b => a ≤ b)).length : ℚ) - 1 := one_mul _

/-- Claim C10 (confirmed): whenever heart-rate statistics are reported
(more than 5 retained rates), min ≤ avg ≤ max, because they are the
rounded 5th percentile, median (50th percentile) and 95th percentile of
one retained-rate multiset, linear-interpolated percentiles are monotone
in the percentile rank on a sorted list, and rounding is monotone; the
same ordering holds for the respiratory statistics (10th percentile,
median, 90th percentile) whenever they are reported. -/
theorem percentile_stats_ordered :
    (∀ (hrs : List ℚ) (a mn mx : ℚ), ecgStats hrs = some (a, mn, mx) → mn ≤ a ∧ a ≤ mx) ∧
    (∀ (rates : List ℚ) (a mn mx : ℚ), respStats rates = some (a, mn, mx) → mn ≤ a ∧ a ≤ mx) := by
  constructor
  · intro l a mn mx h
    unfold ecgStats at h
    split_ifs at h with hlen
    · have hne : l ≠ [] := by
        intro hnil
        rw [hnil] at hlen
        simp at hlen
      rw [Option.some.injEq, Prod.mk.injEq, Prod.mk.injEq] at h
      obtain ⟨ha, hmn, hmx⟩ := h
      subst ha hmn hmx
      unfold npMedian
      constructor
      · exact round2_mono (percentile_mono l hne (by norm_num) (by norm_num) (by norm_num))
      · exact round2_mono (percentile_mono l hne (by norm_num) (by norm_num) (by norm_num))
  · intro l a mn mx h
    unfold respStats at h
    split_ifs at h with hlen
    · have hne : l ≠ [] := by
        intro hnil
        rw [hnil] at hlen
        simp at hlen
      rw [Option.some.injEq, Prod.mk.injEq, Prod.mk.injEq] at h
      obtain ⟨ha, hmn, hmx⟩ := h
      subst ha hmn hmx
      unfold npMedian
      constructor
      · exact round1_mono (percentile_mono l hne (by norm_num) (by norm_num) (by norm_num))
      · exact round1_mono (percentile_mono l hne (by norm_num) (by norm_num) (by norm_num))

/-- Claim C10 witness: applying the ordering to the six retained heart
rates [60, 72, 55, 81, 64, 77] and the pooled respiratory rates
[12, 14, 16]. -/
theorem percentile_stats_witness :
    (round2 (percentile exRates 5) ≤ round2 (npMedian exRates) ∧
      round2 (npMedian exRates) ≤ round2 (percentile exRates 95)) ∧
    (round1 (percentile exResp 10) ≤ round1 (npMedian exResp) ∧
      round1 (npMedian exResp) ≤ round1 (percentile exResp 90)) :=
  ⟨percentile_stats_ordered.1 exRates (round2 (npMedian exRates)) (round2 (percentile exRates 5))
      (round2 (percentile exRates 95)) rfl,
    percentile_stats_ordered.2 exResp (round1 (npMedian exResp)) (round1 (percentile exResp 10))
      (round1 (percentile exResp 90)) rfl⟩
